import Mathlib

/-!
Verification of the stock-mutation core of the Inventory-Tracker repository
(v3 service) against its specification.

The development shallowly embeds the code of src/v3/locks.py,
src/v3/api/stock.py (record_store_stock) and src/v3/audit.py
(audit_operation / log_audit), together with the data model of
src/v3/models/stock.py and src/v3/models/store.py.  The shared Redis
key-value store is modelled as an association list of string pairs; the
relational database as lists of rows; quantities (floats in the source,
used only with +, -, abs and comparisons) as integers.  Wall-clock time is
not modelled, so TTL expiry never happens inside a run: a lock key exists
until it is deleted.  Each request runs to completion before the next one
starts, which is the serialisation the per-pair lock is there to provide.
-/

namespace InvTracker

/-! ## Shared key-value store (Redis) -/

/-- The shared key-value store, an association list of key/value pairs. -/
abbrev KV := List (String × String)

/-- redis get: first binding of the key, if any (None when absent). -/
def kvGet (kv : KV) (k : String) : Option String :=
  (kv.find? (fun p => p.1 == k)).map Prod.snd

/-- redis delete: remove the key. -/
def kvDelete (kv : KV) (k : String) : KV :=
  kv.filter (fun p => p.1 != k)

/-- redis set with nx=True: create the key only if it is absent; returns
whether the key was set (redis returns None, i.e. falsy, when not set).
The ex= expiry is not modelled (no wall clock). -/
def kvSetNX (kv : KV) (k v : String) : Bool × KV :=
  match kvGet kv k with
  | some _ => (false, kv)
  | none => (true, (k, v) :: kv)

/-- redis setex: unconditionally bind the key, replacing any prior binding
(expiry not modelled). -/
def kvSetEx (kv : KV) (k v : String) : KV :=
  (k, v) :: kvDelete kv k

/-! ## Lock Manager (src/v3/locks.py) -/

/-- locks.py acquire_lock: the key is the literal prefix "lock:" followed by
the resource key; a fresh random token (secrets.token_hex(8) in the source,
taken here as the parameter lock_id) is stored with set-if-absent.  Returns
(acquired, lock_id, lock_key) and the updated store. -/
def acquire_lock (kv : KV) (resource_key : String) (lock_id : String) :
    Bool × String × String × KV :=
  let lock_key := "lock:" ++ resource_key
  let (acquired, kv2) := kvSetNX kv lock_key lock_id
  (acquired, lock_id, lock_key, kv2)

/-- locks.py release_lock: read the current value; the Python guard
"if current_id and current_id.decode() == lock_id" is true exactly when the
key is bound (get did not return None), the bound value is non-empty (an
empty bytes value is falsy), and it equals lock_id; only then the key is
deleted and True returned. -/
def release_lock (kv : KV) (lock_key lock_id : String) : Bool × KV :=
  match kvGet kv lock_key with
  | none => (false, kv)
  | some current_id =>
      if current_id ≠ "" ∧ current_id = lock_id then (true, kvDelete kv lock_key)
      else (false, kv)

/-! ## Data model (src/v3/models, plus Product from src/v2/models/product.py,
whose v3 twin is not present under src/v3/models) -/

/-- models/stock.py MovementType, a str-valued enum. -/
inductive MovementType where
  | STOCK_IN
  | SALE
  | RETURN
  | ADJUSTMENT
  | DAMAGE
  | TRANSFER
deriving DecidableEq, Repr

/-- The string value of each MovementType member, as in models/stock.py. -/
def MovementType.value : MovementType → String
  | .STOCK_IN => "stock_in"
  | .SALE => "sale"
  | .RETURN => "return"
  | .ADJUSTMENT => "adjustment"
  | .DAMAGE => "damage"
  | .TRANSFER => "transfer"

/-- Python MovementType(s): the member whose value is s, if any
(ValueError, i.e. none, otherwise). -/
def MovementType.ofString? (s : String) : Option MovementType :=
  if s = "stock_in" then some .STOCK_IN
  else if s = "sale" then some .SALE
  else if s = "return" then some .RETURN
  else if s = "adjustment" then some .ADJUSTMENT
  else if s = "damage" then some .DAMAGE
  else if s = "transfer" then some .TRANSFER
  else none

/-- models/store.py Store (fields the mutation path reads). -/
structure Store where
  id : Int
  name : String
  is_active : Bool
deriving DecidableEq, Repr

/-- Product (src/v2/models/product.py; the v3 model file is absent from
src/v3/models).  low_stock_threshold is the field the v3 endpoint reads for
the post-commit alert (src/v3/api/stock.py line 231). -/
structure Product where
  id : Int
  name : String
  is_active : Bool
  low_stock_threshold : Int
deriving DecidableEq, Repr

/-- models/stock.py StoreStock (last_updated omitted: no wall clock). -/
structure StoreStock where
  store_id : Int
  product_id : Int
  current_quantity : Int
deriving DecidableEq, Repr

/-- models/stock.py StockMovement (timestamp omitted: no wall clock). -/
structure StockMovement where
  product_id : Int
  store_id : Int
  quantity : Int
  type : MovementType
  notes : Option String
  user_id : Option Int
  reference_number : Option String
deriving DecidableEq, Repr

/-- models/audit.py AuditLog (timestamp and ip omitted: no wall clock). -/
structure AuditLog where
  user_id : Option Int
  username : String
  action : String
  resource_type : String
  resource_id : Option Int
  old_values : Option String
  new_values : Option String
deriving DecidableEq, Repr

/-- The authenticated user (models User; only id and username are read). -/
structure User where
  id : Int
  username : String
deriving DecidableEq, Repr

/-- The relational database: one list of rows per table. -/
structure Database where
  stores : List Store
  products : List Product
  store_stocks : List StoreStock
  movements : List StockMovement
  audit_logs : List AuditLog
deriving DecidableEq, Repr

/-- session.get(Store, store_id). -/
def Database.getStore (db : Database) (sid : Int) : Option Store :=
  db.stores.find? (fun s => s.id == sid)

/-- session.get(Product, product_id). -/
def Database.getProduct (db : Database) (pid : Int) : Option Product :=
  db.products.find? (fun p => p.id == pid)

/-- select(StoreStock).where(store_id, product_id).first(). -/
def Database.getStoreStock (db : Database) (sid pid : Int) : Option StoreStock :=
  db.store_stocks.find? (fun ss => ss.store_id == sid && ss.product_id == pid)

/-- Update the first StoreStock row matching the pair, setting its
current_quantity (the session mutates the fetched row in place). -/
def updateFirstStock : List StoreStock → Int → Int → Int → List StoreStock
  | [], _, _, _ => []
  | ss :: rest, sid, pid, q =>
      if ss.store_id == sid && ss.product_id == pid then
        { ss with current_quantity := q } :: rest
      else ss :: updateFirstStock rest sid pid q

/-- Commit the new quantity for a pair: mutate the fetched row if one
exists, otherwise persist the lazily created row (created with quantity 0
and then set before commit, so it lands with quantity q). -/
def Database.putStoreStock (db : Database) (sid pid q : Int) : Database :=
  if (db.getStoreStock sid pid).isSome then
    { db with store_stocks := updateFirstStock db.store_stocks sid pid q }
  else
    { db with store_stocks := db.store_stocks ++ [⟨sid, pid, q⟩] }

/-- The full system state: relational database plus shared key-value store. -/
structure SysState where
  db : Database
  kv : KV
deriving DecidableEq, Repr

/-! ## The movement arithmetic (src/v3/api/stock.py lines 163-172) -/

/-- Lines 163-172 of record_store_stock: the new quantity for a movement,
or none for the "Insufficient stock" rejection.  STOCK_IN and RETURN add the
submitted quantity as is; ADJUSTMENT sets the quantity to the submitted
value as is; SALE, DAMAGE and TRANSFER subtract abs(quantity) and are
rejected when the result would be negative. -/
def newQuantity (movement_type : MovementType) (current quantity : Int) :
    Option Int :=
  match movement_type with
  | .STOCK_IN | .RETURN => some (current + quantity)
  | .ADJUSTMENT => some quantity
  | .SALE | .DAMAGE | .TRANSFER =>
      let nq := current - |quantity|
      if nq < 0 then none else some nq

/-- Reference definition written from the words of spec section 4.2 (not
from the code): STOCK_IN and RETURN add the submitted quantity, ADJUSTMENT
sets it absolutely, SALE, DAMAGE and TRANSFER subtract it and fail with
InsufficientStock when the result would be negative. -/
def specEffectTable (movement_type : MovementType) (current quantity : Int) :
    Option Int :=
  match movement_type with
  | .STOCK_IN | .RETURN => some (current + quantity)
  | .ADJUSTMENT => some quantity
  | .SALE | .DAMAGE | .TRANSFER =>
      if current - quantity < 0 then none else some (current - quantity)

/-! ## The mutation endpoint (src/v3/api/stock.py, record_store_stock) -/

/-- The request body of POST /stores/:store_id/stock.  quantity carries
movement_data.get("quantity", 0) with the default already applied; type is
the raw submitted "type" field (none when absent or not a string, in which
case MovementType(...) raises TypeError). -/
structure MovementData where
  product_id : Int
  quantity : Int
  type : Option String
  notes : Option String
  reference_number : Option String
deriving DecidableEq, Repr

/-- movement type coercion, lines 141-145: a raw string is passed through
MovementType(...); failure is the 400 "Invalid movement type" rejection. -/
def parseMovementType : Option String → Option MovementType
  | none => none
  | some s => MovementType.ofString? s

/-- The outcome of one record_store_stock call. -/
inductive ApiResult where
  | ok (movement : StockMovement) (current_stock : Int)
  | conflict
  | storeNotFound
  | productNotFound
  | invalidMovementType
  | insufficientStock
deriving DecidableEq, Repr

/-- The HTTP status code raised for each outcome. -/
def ApiResult.statusCode : ApiResult → Nat
  | .ok _ _ => 200
  | .conflict => 409
  | .storeNotFound => 404
  | .productNotFound => 404
  | .invalidMovementType => 400
  | .insufficientStock => 400

/-- Resource string for the per-pair lock, line 115 of stock.py. -/
def lockResourceFor (sid pid : Int) : String :=
  "stock:" ++ toString sid ++ ":" ++ toString pid

/-- The key acquire_lock derives from that resource string: the literal
prefix "lock:" in front of it. -/
def lockKeyFor (sid pid : Int) : String :=
  "lock:" ++ lockResourceFor sid pid

/-- Alert key namespace, lines 67 and 233 of stock.py. -/
def alertKeyFor (sid pid : Int) : String :=
  "alert:low_stock:" ++ toString sid ++ ":" ++ toString pid

/-- Rendering of the low-stock alert snapshot stored at the alert key
(json.dumps of the snapshot dict in the source; its exact text plays no
role in any property below). -/
def lowStockAlertValue (sid pid q threshold : Int) : String :=
  "store_id=" ++ toString sid ++ ";product_id=" ++ toString pid ++
    ";current_quantity=" ++ toString q ++ ";threshold=" ++ toString threshold

/-- The StockMovement row built at lines 179-188 of stock.py: the submitted
quantity is stored as is (no abs is applied to the appended row). -/
def movementRow (store_id : Int) (md : MovementData) (user : Option User)
    (movement_type : MovementType) : StockMovement :=
  { product_id := md.product_id
    store_id := store_id
    quantity := md.quantity
    type := movement_type
    notes := md.notes
    user_id := user.map User.id
    reference_number := md.reference_number }

/-- The single transaction of lines 174-195: the updated StoreStock and the
appended StockMovement row commit together. -/
def commitMovement (db : Database) (store_id : Int) (md : MovementData)
    (user : Option User) (movement_type : MovementType) (nq : Int) : Database :=
  let db2 := db.putStoreStock store_id md.product_id nq
  { db2 with movements := db2.movements ++ [movementRow store_id md user movement_type] }

/-- The post-commit alert write of lines 230-246: a 24-hour alert key is
set when the committed quantity is at or below the product's threshold. -/
def postCommitKv (kv : KV) (store_id product_id nq threshold : Int) : KV :=
  if nq ≤ threshold then
    kvSetEx kv (alertKeyFor store_id product_id)
      (lowStockAlertValue store_id product_id nq threshold)
  else kv

/-- The try-block of record_store_stock, lines 125-263, entered with the
lock already held: validate store then product existence (404), coerce the
movement type (400), fetch or lazily create the StoreStock, compute the new
quantity (400 on insufficient stock), and on success commit the updated
StoreStock together with the appended StockMovement row in one transaction
and write the low-stock alert when the new quantity is at or below the
product's threshold.  Every rejection raises before commit, so the database
is unchanged on every non-ok outcome. -/
def recordBody (st : SysState) (store_id : Int) (md : MovementData)
    (user : Option User) : ApiResult × SysState :=
  match st.db.getStore store_id with
  | none => (.storeNotFound, st)
  | some _store =>
    match st.db.getProduct md.product_id with
    | none => (.productNotFound, st)
    | some product =>
      match parseMovementType md.type with
      | none => (.invalidMovementType, st)
      | some movement_type =>
        let current :=
          ((st.db.getStoreStock store_id md.product_id).map
            StoreStock.current_quantity).getD 0
        match newQuantity movement_type current md.quantity with
        | none => (.insufficientStock, st)
        | some nq =>
          (.ok (movementRow store_id md user movement_type) nq,
           { db := commitMovement st.db store_id md user movement_type nq
             kv := postCommitKv st.kv store_id md.product_id nq
               product.low_stock_threshold })

/-- record_store_stock, lines 104-271: acquire the per-pair lock with a
single set-if-absent attempt; when not granted raise 409 Conflict at once
(lines 118-122, before the try-block, so nothing is read or written and the
finally-release does not run); otherwise run the body and release the lock
in the finally-block whatever the outcome. -/
def record_store_stock (st : SysState) (store_id : Int) (md : MovementData)
    (user : Option User) (lock_id : String) : ApiResult × SysState :=
  let lock_resource := lockResourceFor store_id md.product_id
  let (acquired, lid, lock_key, kv1) := acquire_lock st.kv lock_resource lock_id
  if acquired then
    let (res, st2) := recordBody { st with kv := kv1 } store_id md user
    let (_, kv3) := release_lock st2.kv lock_key lid
    (res, { st2 with kv := kv3 })
  else
    (.conflict, st)

/-! ## The audit wrapper (src/v3/audit.py) -/

/-- audit.py log_audit: build the AuditLog row.  json.dumps(x) if x else
None collapses to the Option values passed in. -/
def log_audit (action resource_type : String) (resource_id : Option Int)
    (old_values new_values : Option String) (user : Option User) : AuditLog :=
  { user_id := user.map User.id
    username := (user.map User.username).getD "system"
    action := action
    resource_type := resource_type
    resource_id := resource_id
    old_values := old_values
    new_values := new_values }

/-- The audit entry the wrapper constructs after a successful call
(audit.py async_wrapper with action="CREATE", resource_type="StockMovement"):
old_values stays None because it is only fetched for action "UPDATE"; the
result is the endpoint's plain response dict, and a builtin dict has no
attribute named "dict", so the hasattr(result, "dict") guard fails and
new_values stays None; kwargs carry no "id" and FastAPI passes no
positional args, so resource_id is None too. -/
def pendingAuditEntry (user : Option User) : AuditLog :=
  log_audit "CREATE" "StockMovement" none none none user

/-- The audit_operation(action="CREATE", resource_type="StockMovement")
wrapper around record_store_stock (audit.py async_wrapper).  When the
wrapped call raises, the exception propagates before log_audit runs.  When
it returns, log_audit builds pendingAuditEntry and session.add's it to the
request session — after the endpoint's commit, with no further commit:
get_write_session closes the session at teardown and the pending add is
rolled back, so no audit row ever reaches the database.  The wrapper
therefore leaves the committed state exactly as record_store_stock
produced it. -/
def recordMovement (st : SysState) (store_id : Int) (md : MovementData)
    (user : Option User) (lock_id : String) : ApiResult × SysState :=
  record_store_stock st store_id md user lock_id

/-- One inbound request: path store_id, body, authenticated user, and the
random token secrets.token_hex(8) drew for its lock attempt. -/
structure Request where
  store_id : Int
  body : MovementData
  user : Option User
  lock_id : String
deriving DecidableEq, Repr

/-- A sequence of recordMovement calls, each running to completion before
the next (the serialisation the per-pair lock enforces). -/
def runRequests (st : SysState) (reqs : List Request) : SysState :=
  reqs.foldl (fun s r => (recordMovement s r.store_id r.body r.user r.lock_id).2) st

/-! ## Invariants -/

/-- Every StoreStock row holds a non-negative quantity. -/
def Database.stocksNonneg (db : Database) : Prop :=
  ∀ ss ∈ db.store_stocks, 0 ≤ ss.current_quantity

instance (db : Database) : Decidable db.stocksNonneg :=
  inferInstanceAs (Decidable (∀ ss ∈ db.store_stocks, 0 ≤ ss.current_quantity))

/-- The committed ledger rows of one pair, in commit order. -/
def Database.ledgerFor (db : Database) (sid pid : Int) : List StockMovement :=
  db.movements.filter (fun m => m.store_id == sid && m.product_id == pid)

/-- Fold the per-type effects over a ledger, starting from zero.  A row
whose effect is undefined leaves the accumulator unchanged; no committed
row ever hits that branch, since it was accepted against the very quantity
the fold has reached. -/
def replay (ms : List StockMovement) : Int :=
  ms.foldl (fun c m => (newQuantity m.type c m.quantity).getD c) 0

/-- The ledger replay invariant: every pair's current quantity (zero when
no row exists) is the fold of its committed movement effects from zero. -/
def Database.replayInv (db : Database) : Prop :=
  ∀ sid pid : Int,
    ((db.getStoreStock sid pid).map StoreStock.current_quantity).getD 0
      = replay (db.ledgerFor sid pid)

/-! ## Concrete fixtures -/

/-- An active store. -/
def store1 : Store := { id := 1, name := "Main", is_active := true }

/-- An inactive store with id 2. -/
def storeInactive : Store := { id := 2, name := "Closed", is_active := false }

/-- An active product with a low threshold. -/
def product1 : Product :=
  { id := 1, name := "Widget", is_active := true, low_stock_threshold := 0 }

/-- Empty database holding the active store, the inactive store and the
product. -/
def db0 : Database :=
  { stores := [store1, storeInactive]
    products := [product1]
    store_stocks := []
    movements := []
    audit_logs := [] }

/-- Initial system state: the database above, empty key-value store. -/
def state0 : SysState := { db := db0, kv := [] }

/-- Whether an outcome is a success. -/
def ApiResult.isOk : ApiResult → Bool
  | .ok _ _ => true
  | _ => false

/-- A request body with the given quantity and raw type string against
product 1, with no notes or reference. -/
def mdOf (q : Int) (ty : String) : MovementData :=
  { product_id := 1, quantity := q, type := some ty,
    notes := none, reference_number := none }

/-- ADJUSTMENT with a negative submitted quantity. -/
def mdAdjNeg : MovementData := mdOf (-5) "adjustment"

/-- A request whose submitted type is not one of the six enum values. -/
def mdBadType : MovementData := mdOf 5 "donate"

/-- Scenario A request bodies. -/
def mdStockIn100 : MovementData := mdOf 100 "stock_in"

/-- SALE of 30. -/
def mdSale30 : MovementData := mdOf 30 "sale"

/-- SALE of 80. -/
def mdSale80 : MovementData := mdOf 80 "sale"

/-- Small STOCK_IN used for the audit run. -/
def mdStockIn5 : MovementData := mdOf 5 "stock_in"

/-- Scenario A as a request sequence against store 1. -/
def demoReqs : List Request :=
  [ { store_id := 1, body := mdStockIn100, user := none, lock_id := "a" }
  , { store_id := 1, body := mdSale30, user := none, lock_id := "b" }
  , { store_id := 1, body := mdSale80, user := none, lock_id := "c" } ]

/-- State in which another request holds the lock for pair (1,1). -/
def stateLocked : SysState :=
  { db := db0, kv := [(lockKeyFor 1 1, "other-holder")] }

/-- State in which pair (1,1) already holds quantity 70 (with the matching
one-row ledger, STOCK_IN of 70). -/
def stateStock70 : SysState :=
  { db := { db0 with
      store_stocks := [{ store_id := 1, product_id := 1, current_quantity := 70 }],
      movements := [{ product_id := 1, store_id := 1, quantity := 70,
                      type := .STOCK_IN, notes := none, user_id := none,
                      reference_number := none }] },
    kv := [] }

/-! ## Supporting lemmas: the key-value store and the lock -/

theorem find?_key_eq_false {kv : KV} {k : String} (h : kvGet kv k = none) :
    ∀ p ∈ kv, (p.1 == k) = false := by
  have h1 : kv.find? (fun p => p.1 == k) = none := by
    unfold kvGet at h
    exact Option.map_eq_none'.mp h
  intro p hp
  simpa using List.find?_eq_none.mp h1 p hp

theorem kvDelete_of_get_none {kv : KV} {k : String} (h : kvGet kv k = none) :
    kvDelete kv k = kv := by
  unfold kvDelete
  rw [List.filter_eq_self]
  intro p hp
  simp [bne, find?_key_eq_false h p hp]

theorem kvGet_cons_self (kv : KV) (k v : String) :
    kvGet ((k, v) :: kv) k = some v := by
  simp [kvGet]

theorem release_after_acquire {kv : KV} {k lid : String}
    (h : kvGet kv k = none) (hlid : lid ≠ "") :
    release_lock ((k, lid) :: kv) k lid = (true, kv) := by
  unfold release_lock
  rw [kvGet_cons_self]
  have hd : kvDelete ((k, lid) :: kv) k = kv := by
    unfold kvDelete
    simp only [List.filter_cons]
    rw [if_neg (by simp)]
    exact kvDelete_of_get_none h
  simp [hlid, hd]

/-! ## Supporting lemmas: the endpoint, case by case -/

theorem record_store_stock_locked {st : SysState} {sid : Int} {md : MovementData}
    {u : Option User} {lid v : String}
    (h : kvGet st.kv (lockKeyFor sid md.product_id) = some v) :
    record_store_stock st sid md u lid = (.conflict, st) := by
  have h2 : kvGet st.kv ("lock:" ++ lockResourceFor sid md.product_id) = some v := h
  simp [record_store_stock, acquire_lock, kvSetNX, h2]

theorem record_store_stock_free {st : SysState} {sid : Int} {md : MovementData}
    {u : Option User} {lid : String}
    (h : kvGet st.kv (lockKeyFor sid md.product_id) = none) :
    record_store_stock st sid md u lid =
      (let r := recordBody { st with kv := (lockKeyFor sid md.product_id, lid) :: st.kv } sid md u
       (r.1, { r.2 with kv := (release_lock r.2.kv (lockKeyFor sid md.product_id) lid).2 })) := by
  have h2 : kvGet st.kv ("lock:" ++ lockResourceFor sid md.product_id) = none := h
  simp [record_store_stock, acquire_lock, kvSetNX, h2, lockKeyFor]

theorem recordBody_store_missing {st : SysState} {sid : Int} {md : MovementData}
    {u : Option User} (h : st.db.getStore sid = none) :
    recordBody st sid md u = (.storeNotFound, st) := by
  unfold recordBody
  rw [h]

theorem recordBody_product_missing {st : SysState} {sid : Int} {md : MovementData}
    {u : Option User} {s : Store} (hs : st.db.getStore sid = some s)
    (h : st.db.getProduct md.product_id = none) :
    recordBody st sid md u = (.productNotFound, st) := by
  unfold recordBody
  rw [hs, h]

theorem recordBody_bad_type {st : SysState} {sid : Int} {md : MovementData}
    {u : Option User} {s : Store} {prod : Product}
    (hs : st.db.getStore sid = some s)
    (hp : st.db.getProduct md.product_id = some prod)
    (ht : parseMovementType md.type = none) :
    recordBody st sid md u = (.invalidMovementType, st) := by
  unfold recordBody
  rw [hs, hp, ht]

theorem recordBody_insufficient {st : SysState} {sid : Int} {md : MovementData}
    {u : Option User} {s : Store} {prod : Product} {t : MovementType}
    (hs : st.db.getStore sid = some s)
    (hp : st.db.getProduct md.product_id = some prod)
    (ht : parseMovementType md.type = some t)
    (hq : newQuantity t
      (((st.db.getStoreStock sid md.product_id).map
        StoreStock.current_quantity).getD 0) md.quantity = none) :
    recordBody st sid md u = (.insufficientStock, st) := by
  unfold recordBody
  rw [hs, hp, ht]
  simp only []
  rw [hq]

theorem recordBody_ok {st : SysState} {sid : Int} {md : MovementData}
    {u : Option User} {s : Store} {prod : Product} {t : MovementType} {nq : Int}
    (hs : st.db.getStore sid = some s)
    (hp : st.db.getProduct md.product_id = some prod)
    (ht : parseMovementType md.type = some t)
    (hq : newQuantity t
      (((st.db.getStoreStock sid md.product_id).map
        StoreStock.current_quantity).getD 0) md.quantity = some nq) :
    recordBody st sid md u =
      (.ok (movementRow sid md u t) nq,
       { db := commitMovement st.db sid md u t nq
         kv := postCommitKv st.kv sid md.product_id nq prod.low_stock_threshold }) := by
  unfold recordBody
  rw [hs, hp, ht]
  simp only []
  rw [hq]

/-! ## Supporting lemmas: the persisted StoreStock row -/

theorem find?_updateFirstStock_same (l : List StoreStock) (sid pid q : Int)
    (h : (l.find? (fun ss => ss.store_id == sid && ss.product_id == pid)).isSome) :
    ((updateFirstStock l sid pid q).find?
        (fun ss => ss.store_id == sid && ss.product_id == pid)).map
      StoreStock.current_quantity = some q := by
  induction l with
  | nil => simp at h
  | cons a t ih =>
    by_cases ha : (a.store_id == sid && a.product_id == pid) = true
    · simp [updateFirstStock, ha, List.find?_cons]
    · have h2 : (t.find? (fun ss => ss.store_id == sid && ss.product_id == pid)).isSome := by
        simpa [List.find?_cons, ha] using h
      simp [updateFirstStock, ha, List.find?_cons, ih h2]

theorem pair_pred_false {x y s p : Int} (hne : ¬(x = s ∧ y = p)) :
    ((x == s) && (y == p)) = false := by
  by_cases h1 : x = s <;> by_cases h2 : y = p <;> simp_all

theorem find?_updateFirstStock_other (l : List StoreStock) (sid pid q s p : Int)
    (hne : ¬(sid = s ∧ pid = p)) :
    (updateFirstStock l sid pid q).find?
        (fun ss => ss.store_id == s && ss.product_id == p)
      = l.find? (fun ss => ss.store_id == s && ss.product_id == p) := by
  induction l with
  | nil => rfl
  | cons a t ih =>
    by_cases ha : (a.store_id == sid && a.product_id == pid) = true
    · have ha1 : a.store_id = sid ∧ a.product_id = pid := by simpa using ha
      have hfalse : ((a.store_id == s) && (a.product_id == p)) = false := by
        rw [ha1.1, ha1.2]
        exact pair_pred_false hne
      simp [updateFirstStock, ha, List.find?_cons, hfalse]
    · by_cases hsp : ((a.store_id == s) && (a.product_id == p)) = true
      · simp [updateFirstStock, ha, List.find?_cons, hsp]
      · simp [updateFirstStock, ha, List.find?_cons, hsp, ih]

theorem mem_updateFirstStock {l : List StoreStock} {sid pid q : Int} {ss : StoreStock}
    (h : ss ∈ updateFirstStock l sid pid q) :
    ss.current_quantity = q ∨ ss ∈ l := by
  induction l with
  | nil => simp [updateFirstStock] at h
  | cons a t ih =>
    by_cases ha : (a.store_id == sid && a.product_id == pid) = true
    · simp only [updateFirstStock, if_pos ha, List.mem_cons] at h
      rcases h with h | h
      · left
        rw [h]
      · right
        exact List.mem_cons_of_mem _ h
    · simp only [updateFirstStock, if_neg ha, List.mem_cons] at h
      rcases h with h | h
      · right
        exact h ▸ List.mem_cons_self _ _
      · rcases ih h with h1 | h1
        · left
          exact h1
        · right
          exact List.mem_cons_of_mem _ h1

theorem putStoreStock_get_same (db : Database) (sid pid q : Int) :
    ((db.putStoreStock sid pid q).getStoreStock sid pid).map
      StoreStock.current_quantity = some q := by
  unfold Database.putStoreStock
  split
  · next h =>
    exact find?_updateFirstStock_same db.store_stocks sid pid q h
  · next h =>
    have hl : db.store_stocks.find?
        (fun ss => ss.store_id == sid && ss.product_id == pid) = none :=
      Option.not_isSome_iff_eq_none.mp h
    simp [Database.getStoreStock, List.find?_append, hl, List.find?_cons]

theorem putStoreStock_get_other (db : Database) (sid pid q s p : Int)
    (hne : ¬(sid = s ∧ pid = p)) :
    (db.putStoreStock sid pid q).getStoreStock s p = db.getStoreStock s p := by
  unfold Database.putStoreStock
  split
  · exact find?_updateFirstStock_other db.store_stocks sid pid q s p hne
  · have hnew : (((⟨sid, pid, q⟩ : StoreStock).store_id == s)
        && ((⟨sid, pid, q⟩ : StoreStock).product_id == p)) = false :=
      pair_pred_false hne
    simp [Database.getStoreStock, List.find?_append, List.find?_cons, hnew]

theorem putStoreStock_movements (db : Database) (sid pid q : Int) :
    (db.putStoreStock sid pid q).movements = db.movements := by
  unfold Database.putStoreStock
  split <;> rfl

theorem commit_getStoreStock (db : Database) (sid : Int) (md : MovementData)
    (u : Option User) (t : MovementType) (nq s p : Int) :
    (commitMovement db sid md u t nq).getStoreStock s p
      = (db.putStoreStock sid md.product_id nq).getStoreStock s p := rfl

theorem commit_movements (db : Database) (sid : Int) (md : MovementData)
    (u : Option User) (t : MovementType) (nq : Int) :
    (commitMovement db sid md u t nq).movements
      = db.movements ++ [movementRow sid md u t] := by
  show (db.putStoreStock sid md.product_id nq).movements ++ [movementRow sid md u t]
    = db.movements ++ [movementRow sid md u t]
  rw [putStoreStock_movements]

/-! ## Supporting lemmas: the movement arithmetic -/

theorem newQuantity_nonneg {t : MovementType} {c q nq : Int} (hc : 0 ≤ c)
    (hq : 0 ≤ q) (h : newQuantity t c q = some nq) : 0 ≤ nq := by
  cases t <;> unfold newQuantity at h <;> simp only [] at h
  case STOCK_IN => cases h; omega
  case RETURN => cases h; omega
  case ADJUSTMENT => cases h; omega
  all_goals
    split at h
    · cases h
    · next hcond =>
      cases h
      exact not_lt.mp hcond

theorem current_nonneg {db : Database} (hinv : db.stocksNonneg) (sid pid : Int) :
    0 ≤ ((db.getStoreStock sid pid).map StoreStock.current_quantity).getD 0 := by
  cases hss : db.getStoreStock sid pid with
  | none => simp
  | some ss =>
      simp only [Option.map_some', Option.getD_some]
      exact hinv ss (List.mem_of_find?_eq_some hss)

theorem stocksNonneg_put {db : Database} {sid pid q : Int} (hq : 0 ≤ q)
    (hinv : db.stocksNonneg) : (db.putStoreStock sid pid q).stocksNonneg := by
  intro ss hss
  unfold Database.putStoreStock at hss
  split at hss
  · rcases mem_updateFirstStock hss with h | h
    · rw [h]
      exact hq
    · exact hinv ss h
  · rcases List.mem_append.mp hss with h | h
    · exact hinv ss h
    · have h2 : ss = ⟨sid, pid, q⟩ := by simpa using h
      rw [h2]
      exact hq

/-! ## Supporting lemmas: the replay fold -/

theorem replay_append_one (ms : List StockMovement) (m : StockMovement) :
    replay (ms ++ [m])
      = (newQuantity m.type (replay ms) m.quantity).getD (replay ms) := by
  unfold replay
  rw [List.foldl_append]
  rfl

theorem ledgerFor_commit_same (db : Database) (sid : Int) (md : MovementData)
    (u : Option User) (t : MovementType) (nq : Int) :
    (commitMovement db sid md u t nq).ledgerFor sid md.product_id
      = db.ledgerFor sid md.product_id ++ [movementRow sid md u t] := by
  unfold Database.ledgerFor
  rw [commit_movements, List.filter_append]
  simp [movementRow]

theorem ledgerFor_commit_other (db : Database) (sid : Int) (md : MovementData)
    (u : Option User) (t : MovementType) (nq s p : Int)
    (hne : ¬(sid = s ∧ md.product_id = p)) :
    (commitMovement db sid md u t nq).ledgerFor s p = db.ledgerFor s p := by
  unfold Database.ledgerFor
  rw [commit_movements, List.filter_append]
  have hrow : (((movementRow sid md u t).store_id == s)
      && ((movementRow sid md u t).product_id == p)) = false := by
    show ((sid == s) && (md.product_id == p)) = false
    exact pair_pred_false hne
  simp [hrow]

theorem replayInv_commit {db : Database} {sid : Int} {md : MovementData}
    {u : Option User} {t : MovementType} {nq : Int}
    (hq : newQuantity t
      (((db.getStoreStock sid md.product_id).map
        StoreStock.current_quantity).getD 0) md.quantity = some nq)
    (hinv : db.replayInv) : (commitMovement db sid md u t nq).replayInv := by
  intro s p
  by_cases hsp : sid = s ∧ md.product_id = p
  · obtain ⟨rfl, rfl⟩ := hsp
    rw [commit_getStoreStock, putStoreStock_get_same,
      ledgerFor_commit_same, replay_append_one, ← hinv sid md.product_id]
    simp only [movementRow]
    rw [hq]
    rfl
  · rw [commit_getStoreStock,
      putStoreStock_get_other db sid md.product_id nq s p hsp,
      ledgerFor_commit_other db sid md u t nq s p hsp]
    exact hinv s p

/-! ## Supporting lemmas: the invariants across one call and across a run -/

theorem stocksNonneg_recordBody {st : SysState} {sid : Int} {md : MovementData}
    {u : Option User} (hq : 0 ≤ md.quantity) (hinv : st.db.stocksNonneg) :
    ((recordBody st sid md u).2).db.stocksNonneg := by
  cases hs : st.db.getStore sid with
  | none =>
      rw [recordBody_store_missing hs]
      exact hinv
  | some s =>
    cases hp : st.db.getProduct md.product_id with
    | none =>
        rw [recordBody_product_missing hs hp]
        exact hinv
    | some prod =>
      cases ht : parseMovementType md.type with
      | none =>
          rw [recordBody_bad_type hs hp ht]
          exact hinv
      | some t =>
        cases hnq : newQuantity t
            (((st.db.getStoreStock sid md.product_id).map
              StoreStock.current_quantity).getD 0) md.quantity with
        | none =>
            rw [recordBody_insufficient hs hp ht hnq]
            exact hinv
        | some nq =>
            rw [recordBody_ok hs hp ht hnq]
            intro ss hss
            have h0 : 0 ≤ nq :=
              newQuantity_nonneg (current_nonneg hinv sid md.product_id) hq hnq
            exact stocksNonneg_put h0 hinv ss hss

theorem replayInv_recordBody {st : SysState} {sid : Int} {md : MovementData}
    {u : Option User} (hinv : st.db.replayInv) :
    ((recordBody st sid md u).2).db.replayInv := by
  cases hs : st.db.getStore sid with
  | none =>
      rw [recordBody_store_missing hs]
      exact hinv
  | some s =>
    cases hp : st.db.getProduct md.product_id with
    | none =>
        rw [recordBody_product_missing hs hp]
        exact hinv
    | some prod =>
      cases ht : parseMovementType md.type with
      | none =>
          rw [recordBody_bad_type hs hp ht]
          exact hinv
      | some t =>
        cases hnq : newQuantity t
            (((st.db.getStoreStock sid md.product_id).map
              StoreStock.current_quantity).getD 0) md.quantity with
        | none =>
            rw [recordBody_insufficient hs hp ht hnq]
            exact hinv
        | some nq =>
            rw [recordBody_ok hs hp ht hnq]
            exact replayInv_commit hnq hinv

theorem stocksNonneg_step {st : SysState} {sid : Int} {md : MovementData}
    {u : Option User} {lid : String} (hq : 0 ≤ md.quantity)
    (hinv : st.db.stocksNonneg) :
    ((recordMovement st sid md u lid).2).db.stocksNonneg := by
  unfold recordMovement
  cases hk : kvGet st.kv (lockKeyFor sid md.product_id) with
  | some v =>
      rw [record_store_stock_locked hk]
      exact hinv
  | none =>
      rw [record_store_stock_free hk]
      exact @stocksNonneg_recordBody
        { st with kv := (lockKeyFor sid md.product_id, lid) :: st.kv }
        sid md u hq hinv

theorem replayInv_step {st : SysState} {sid : Int} {md : MovementData}
    {u : Option User} {lid : String} (hinv : st.db.replayInv) :
    ((recordMovement st sid md u lid).2).db.replayInv := by
  unfold recordMovement
  cases hk : kvGet st.kv (lockKeyFor sid md.product_id) with
  | some v =>
      rw [record_store_stock_locked hk]
      exact hinv
  | none =>
      rw [record_store_stock_free hk]
      exact @replayInv_recordBody
        { st with kv := (lockKeyFor sid md.product_id, lid) :: st.kv }
        sid md u hinv

theorem stocksNonneg_run (st : SysState) (reqs : List Request)
    (hq : ∀ r ∈ reqs, 0 ≤ r.body.quantity) (hinv : st.db.stocksNonneg) :
    (runRequests st reqs).db.stocksNonneg := by
  induction reqs generalizing st with
  | nil => exact hinv
  | cons r rest ih =>
      exact ih _ (fun x hx => hq x (List.mem_cons_of_mem _ hx))
        (stocksNonneg_step (hq r (List.mem_cons_self _ _)) hinv)

theorem replayInv_run (st : SysState) (reqs : List Request)
    (hinv : st.db.replayInv) : (runRequests st reqs).db.replayInv := by
  induction reqs generalizing st with
  | nil => exact hinv
  | cons r rest ih => exact ih _ (replayInv_step hinv)

/-! ## Supporting lemmas: whole-call outcomes -/

theorem acquire_lock_of_locked {kv : KV} {sid pid : Int} {lid v : String}
    (h : kvGet kv (lockKeyFor sid pid) = some v) :
    (acquire_lock kv (lockResourceFor sid pid) lid).1 = false := by
  have h2 : kvGet kv ("lock:" ++ lockResourceFor sid pid) = some v := h
  simp [acquire_lock, kvSetNX, h2]

theorem acquire_lock_of_free {kv : KV} {sid pid : Int} {lid : String}
    (h : kvGet kv (lockKeyFor sid pid) = none) :
    acquire_lock kv (lockResourceFor sid pid) lid
      = (true, lid, lockKeyFor sid pid, (lockKeyFor sid pid, lid) :: kv) := by
  have h2 : kvGet kv ("lock:" ++ lockResourceFor sid pid) = none := h
  simp [acquire_lock, kvSetNX, h2, lockKeyFor]

theorem ofString?_eq_some {s : String} {t : MovementType}
    (h : MovementType.ofString? s = some t) : s = t.value := by
  unfold MovementType.ofString? at h
  repeat' split at h
  all_goals first
    | (injection h with h2
       subst h2
       simp_all [MovementType.value])
    | cases h

theorem parse_none_of_not_value {o : Option String}
    (h : ∀ t : MovementType, o ≠ some t.value) :
    parseMovementType o = none := by
  cases o with
  | none => rfl
  | some s =>
      cases hof : MovementType.ofString? s with
      | none => simp [parseMovementType, hof]
      | some t =>
          exact absurd (congrArg some (ofString?_eq_some hof)) (h t)

theorem record_store_stock_err {st : SysState} {sid : Int} {md : MovementData}
    {u : Option User} {lid : String} {e : ApiResult}
    (hk : kvGet st.kv (lockKeyFor sid md.product_id) = none)
    (hlid : lid ≠ "")
    (hbody : recordBody
        { st with kv := (lockKeyFor sid md.product_id, lid) :: st.kv } sid md u
      = (e, { st with kv := (lockKeyFor sid md.product_id, lid) :: st.kv })) :
    record_store_stock st sid md u lid = (e, st) := by
  rw [record_store_stock_free hk]
  simp only [hbody]
  rw [release_after_acquire hk hlid]

theorem recordMovement_err {st : SysState} {sid : Int} {md : MovementData}
    {u : Option User} {lid : String} {e : ApiResult}
    (h : record_store_stock st sid md u lid = (e, st)) (_hne : e.isOk = false) :
    recordMovement st sid md u lid = (e, st) := h

theorem recordBody_ne_conflict (st : SysState) (sid : Int) (md : MovementData)
    (u : Option User) : (recordBody st sid md u).1 ≠ ApiResult.conflict := by
  cases hs : st.db.getStore sid with
  | none =>
      rw [recordBody_store_missing hs]
      simp
  | some s =>
    cases hp : st.db.getProduct md.product_id with
    | none =>
        rw [recordBody_product_missing hs hp]
        simp
    | some prod =>
      cases ht : parseMovementType md.type with
      | none =>
          rw [recordBody_bad_type hs hp ht]
          simp
      | some t =>
        cases hnq : newQuantity t
            (((st.db.getStoreStock sid md.product_id).map
              StoreStock.current_quantity).getD 0) md.quantity with
        | none =>
            rw [recordBody_insufficient hs hp ht hnq]
            simp
        | some nq =>
            rw [recordBody_ok hs hp ht hnq]
            simp

theorem putStoreStock_audit_logs (db : Database) (sid pid q : Int) :
    (db.putStoreStock sid pid q).audit_logs = db.audit_logs := by
  unfold Database.putStoreStock
  split <;> rfl

theorem recordBody_audit_logs (st : SysState) (sid : Int) (md : MovementData)
    (u : Option User) :
    ((recordBody st sid md u).2).db.audit_logs = st.db.audit_logs := by
  cases hs : st.db.getStore sid with
  | none =>
      rw [recordBody_store_missing hs]
  | some s =>
    cases hp : st.db.getProduct md.product_id with
    | none =>
        rw [recordBody_product_missing hs hp]
    | some prod =>
      cases ht : parseMovementType md.type with
      | none =>
          rw [recordBody_bad_type hs hp ht]
      | some t =>
        cases hnq : newQuantity t
            (((st.db.getStoreStock sid md.product_id).map
              StoreStock.current_quantity).getD 0) md.quantity with
        | none =>
            rw [recordBody_insufficient hs hp ht hnq]
        | some nq =>
            rw [recordBody_ok hs hp ht hnq]
            exact putStoreStock_audit_logs st.db sid md.product_id nq

theorem recordMovement_audit_logs (st : SysState) (sid : Int)
    (md : MovementData) (u : Option User) (lid : String) :
    ((recordMovement st sid md u lid).2).db.audit_logs = st.db.audit_logs := by
  unfold recordMovement
  cases hk : kvGet st.kv (lockKeyFor sid md.product_id) with
  | some v =>
      rw [record_store_stock_locked hk]
  | none =>
      rw [record_store_stock_free hk]
      exact recordBody_audit_logs
        { st with kv := (lockKeyFor sid md.product_id, lid) :: st.kv } sid md u

/-! ## Claim C1 — non-negativity invariant -/

/-- Claim C1, as stated, is false: an ADJUSTMENT movement with a negative
submitted quantity is accepted (HTTP 200) and leaves current_quantity
negative.  From the empty stock, ADJUSTMENT(-5) commits and the (1,1) row
ends at -5 < 0. -/
theorem claim1_counterexample :
    (recordMovement state0 1 mdAdjNeg none "tok").1.statusCode = 200
    ∧ ((recordMovement state0 1 mdAdjNeg none "tok").2.db.getStoreStock 1 1).map
        StoreStock.current_quantity = some (-5)
    ∧ (-5 : Int) < 0 := by
  refine ⟨by decide, by decide, by decide⟩

/-- Claim C1 (amended): restricted to requests whose submitted quantity is
non-negative — the domain the spec itself assumes when it says quantity is
"always treated as a non-negative magnitude" — the invariant holds: from
any state whose stock rows are all non-negative, every sequence of
recordMovement calls leaves every row non-negative, hence so does every
prefix of the sequence. -/
theorem claim1_nonneg_amended (st : SysState) (reqs : List Request)
    (hq : ∀ r ∈ reqs, 0 ≤ r.body.quantity) (hinv : st.db.stocksNonneg) :
    (runRequests st reqs).db.stocksNonneg :=
  stocksNonneg_run st reqs hq hinv

/-- Witness for claim C1 (amended) on Scenario A against the fresh state. -/
theorem claim1_nonneg_amended_witness :
    (∀ r ∈ demoReqs, 0 ≤ r.body.quantity) ∧ state0.db.stocksNonneg
    ∧ (runRequests state0 demoReqs).db.stocksNonneg :=
  ⟨by decide, by decide, claim1_nonneg_amended state0 demoReqs (by decide) (by decide)⟩

/-! ## Claim C2 — ledger replay invariant -/

/-- Claim C2: from any state satisfying the replay invariant (the fresh
system does), after every sequence of recordMovement calls, each pair's
current_quantity equals the fold of the per-type effects of its committed
StockMovement rows, applied in commit order starting from zero. -/
theorem claim2_ledger_replay (st : SysState) (reqs : List Request)
    (hinv : st.db.replayInv) : (runRequests st reqs).db.replayInv :=
  replayInv_run st reqs hinv

/-- Witness for claim C2 on Scenario A against the fresh state. -/
theorem claim2_ledger_replay_witness :
    state0.db.replayInv ∧ (runRequests state0 demoReqs).db.replayInv :=
  ⟨fun _sid _pid => rfl,
   claim2_ledger_replay state0 demoReqs (fun _sid _pid => rfl)⟩

/-! ## Claim C3 — the movement effect function -/

/-- Claim C3: for current quantity c ≥ 0 and submitted quantity q ≥ 0,
STOCK_IN and RETURN produce c + q, ADJUSTMENT produces exactly q, and SALE,
DAMAGE and TRANSFER produce c - q, failing (InsufficientStock) exactly when
c - q < 0; on this domain the code's effect coincides with the section 4.2
reference table for every movement type. -/
theorem claim3_effect_table (c q : Int) (_hc : 0 ≤ c) (hq : 0 ≤ q) :
    newQuantity MovementType.STOCK_IN c q = some (c + q)
    ∧ newQuantity MovementType.RETURN c q = some (c + q)
    ∧ newQuantity MovementType.ADJUSTMENT c q = some q
    ∧ newQuantity MovementType.SALE c q
        = (if c - q < 0 then none else some (c - q))
    ∧ newQuantity MovementType.DAMAGE c q
        = (if c - q < 0 then none else some (c - q))
    ∧ newQuantity MovementType.TRANSFER c q
        = (if c - q < 0 then none else some (c - q))
    ∧ (∀ t : MovementType, newQuantity t c q = specEffectTable t c q) := by
  have habs : |q| = q := abs_of_nonneg hq
  refine ⟨rfl, rfl, rfl, ?_, ?_, ?_, ?_⟩
  · simp [newQuantity, habs]
  · simp [newQuantity, habs]
  · simp [newQuantity, habs]
  · intro t
    cases t <;> simp [newQuantity, specEffectTable, habs]

/-- Witness for claim C3 at c = 5, q = 3. -/
theorem claim3_effect_table_witness :
    0 ≤ (5 : Int) ∧ 0 ≤ (3 : Int)
    ∧ (newQuantity MovementType.STOCK_IN 5 3 = some (5 + 3)
       ∧ newQuantity MovementType.RETURN 5 3 = some (5 + 3)
       ∧ newQuantity MovementType.ADJUSTMENT 5 3 = some 3
       ∧ newQuantity MovementType.SALE 5 3
           = (if (5 : Int) - 3 < 0 then none else some (5 - 3))
       ∧ newQuantity MovementType.DAMAGE 5 3
           = (if (5 : Int) - 3 < 0 then none else some (5 - 3))
       ∧ newQuantity MovementType.TRANSFER 5 3
           = (if (5 : Int) - 3 < 0 then none else some (5 - 3))
       ∧ (∀ t : MovementType, newQuantity t 5 3 = specEffectTable t 5 3)) :=
  ⟨by decide, by decide, claim3_effect_table 5 3 (by decide) (by decide)⟩

/-! ## Claim C4 — compare-and-delete release -/

/-- Claim C4, as stated, is false at one corner of the state space: when
the key exists and holds the empty string and the token is the empty
string, the key exists with value exactly equal to the token, yet
release_lock returns false and leaves the store unchanged, because the
Python guard "if current_id and ..." treats the empty value as falsy. -/
theorem claim4_counterexample :
    kvGet [("k", "")] "k" = some ""
    ∧ release_lock [("k", "")] "k" "" = (false, [("k", "")]) := by
  refine ⟨rfl, by decide⟩

/-- Claim C4 (amended): release deletes the key and returns true if and
only if the key currently exists with a non-empty value exactly equal to
the token; otherwise (key absent, value different, or value empty) it
returns false and leaves the store unchanged. -/
theorem claim4_release_amended (kv : KV) (k tok : String) :
    (release_lock kv k tok = (true, kvDelete kv k)
      ∧ kvGet kv k = some tok ∧ tok ≠ "")
    ∨ (release_lock kv k tok = (false, kv)
      ∧ ¬(kvGet kv k = some tok ∧ tok ≠ "")) := by
  unfold release_lock
  cases hg : kvGet kv k with
  | none =>
      right
      refine ⟨rfl, ?_⟩
      rintro ⟨hc, -⟩
      exact Option.noConfusion hc
  | some v =>
      by_cases hv : v ≠ "" ∧ v = tok
      · left
        refine ⟨?_, ?_, ?_⟩
        · show (if v ≠ "" ∧ v = tok then (true, kvDelete kv k)
            else (false, kv)) = (true, kvDelete kv k)
          rw [if_pos hv]
        · rw [← hv.2]
        · rw [← hv.2]
          exact hv.1
      · right
        refine ⟨?_, ?_⟩
        · show (if v ≠ "" ∧ v = tok then (true, kvDelete kv k)
            else (false, kv)) = (false, kv)
          rw [if_neg hv]
        · rintro ⟨hc, hne⟩
          have hveq : v = tok := Option.some.inj hc
          exact hv ⟨hveq ▸ hne, hveq⟩

/-! ## Claim C5 — lock contention fails fast -/

/-- Claim C5: whenever the lock key for the targeted pair is already held,
recordMovement returns Conflict (HTTP 409) and the entire state — database
and key-value store alike, for every database content — is untouched; the
acquisition itself is the single non-blocking set-if-absent attempt and
reports not granted. -/
theorem claim5_lock_contention (st : SysState) (sid : Int) (md : MovementData)
    (u : Option User) (lid v : String)
    (h : kvGet st.kv (lockKeyFor sid md.product_id) = some v) :
    recordMovement st sid md u lid = (.conflict, st)
    ∧ (acquire_lock st.kv (lockResourceFor sid md.product_id) lid).1 = false
    ∧ ApiResult.conflict.statusCode = 409 := by
  refine ⟨?_, acquire_lock_of_locked h, rfl⟩
  exact recordMovement_err (record_store_stock_locked h) rfl

/-- Witness for claim C5: the state whose (1,1) lock is held by another
request. -/
theorem claim5_lock_contention_witness :
    kvGet stateLocked.kv (lockKeyFor 1 1) = some "other-holder"
    ∧ (recordMovement stateLocked 1 mdSale30 none "tok" = (.conflict, stateLocked)
       ∧ (acquire_lock stateLocked.kv (lockResourceFor 1 1) "tok").1 = false
       ∧ ApiResult.conflict.statusCode = 409) :=
  ⟨by decide,
   claim5_lock_contention stateLocked 1 mdSale30 none "tok" "other-holder" (by decide)⟩

/-! ## Claim C6 — InsufficientStock is atomic and clean -/

/-- Claim C6: a SALE, DAMAGE or TRANSFER whose application would drive the
quantity negative fails with InsufficientStock (HTTP 400) and the final
state equals the initial state exactly: the quantity is unchanged, no
StockMovement row is committed, and the acquired lock has been released. -/
theorem claim6_insufficient_atomic (st : SysState) (sid : Int)
    (md : MovementData) (u : Option User) (lid : String) (s : Store)
    (prod : Product) (t : MovementType)
    (hk : kvGet st.kv (lockKeyFor sid md.product_id) = none)
    (hlid : lid ≠ "")
    (hs : st.db.getStore sid = some s)
    (hp : st.db.getProduct md.product_id = some prod)
    (ht : parseMovementType md.type = some t)
    (hcase : t = .SALE ∨ t = .DAMAGE ∨ t = .TRANSFER)
    (hneg : ((st.db.getStoreStock sid md.product_id).map
      StoreStock.current_quantity).getD 0 - |md.quantity| < 0) :
    recordMovement st sid md u lid = (.insufficientStock, st)
    ∧ ApiResult.insufficientStock.statusCode = 400 := by
  have hnone : newQuantity t
      (((st.db.getStoreStock sid md.product_id).map
        StoreStock.current_quantity).getD 0) md.quantity = none := by
    rcases hcase with rfl | rfl | rfl <;> simp [newQuantity, hneg]
  refine ⟨?_, rfl⟩
  exact recordMovement_err
    (record_store_stock_err hk hlid (recordBody_insufficient hs hp ht hnone)) rfl

/-- Witness for claim C6, Scenario A's last step: from quantity 70,
SALE(80) is rejected with InsufficientStock and the state — quantity 70
included — is exactly what it was. -/
theorem claim6_insufficient_atomic_witness :
    kvGet stateStock70.kv (lockKeyFor 1 1) = none
    ∧ ("tok" : String) ≠ ""
    ∧ stateStock70.db.getStore 1 = some store1
    ∧ stateStock70.db.getProduct 1 = some product1
    ∧ parseMovementType mdSale80.type = some MovementType.SALE
    ∧ ((stateStock70.db.getStoreStock 1 1).map
        StoreStock.current_quantity).getD 0 - |(80 : Int)| < 0
    ∧ (recordMovement stateStock70 1 mdSale80 none "tok"
        = (.insufficientStock, stateStock70)
       ∧ ApiResult.insufficientStock.statusCode = 400) :=
  ⟨by decide, by decide, by decide, by decide, by decide, by decide,
   claim6_insufficient_atomic stateStock70 1 mdSale80 none "tok" store1 product1
     MovementType.SALE (by decide) (by decide) (by decide) (by decide)
     (by decide) (Or.inl rfl) (by decide)⟩

/-! ## Claim C7 — existence (not activity) validation -/

/-- Claim C7, as stated, is false: the endpoint checks only that the store
and product rows exist, never is_active.  Store 2 exists but is inactive,
yet STOCK_IN(5) against it succeeds with HTTP 200 instead of failing with
NotFound. -/
theorem claim7_counterexample :
    (db0.getStore 2).map Store.is_active = some false
    ∧ (recordMovement state0 2 mdStockIn5 none "tok").1.statusCode = 200 := by
  refine ⟨by decide, by decide⟩

/-- Claim C7 (amended): recordMovement fails with NotFound (HTTP 404) when
the target store or the target product row is absent — activity is not
consulted — and in that case the final state equals the initial state: no
StoreStock or StockMovement change is committed and the lock is released. -/
theorem claim7_notfound_amended (st : SysState) (sid : Int) (md : MovementData)
    (u : Option User) (lid : String)
    (hk : kvGet st.kv (lockKeyFor sid md.product_id) = none)
    (hlid : lid ≠ "")
    (hmiss : st.db.getStore sid = none ∨ st.db.getProduct md.product_id = none) :
    recordMovement st sid md u lid
      = (if (st.db.getStore sid).isNone then .storeNotFound else .productNotFound, st)
    ∧ ApiResult.storeNotFound.statusCode = 404
    ∧ ApiResult.productNotFound.statusCode = 404 := by
  refine ⟨?_, rfl, rfl⟩
  cases hsO : st.db.getStore sid with
  | none =>
      exact recordMovement_err
        (record_store_stock_err hk hlid (recordBody_store_missing hsO)) rfl
  | some s =>
      rcases hmiss with h | hp
      · exact Option.noConfusion (hsO.symm.trans h)
      · exact recordMovement_err
          (record_store_stock_err hk hlid (recordBody_product_missing hsO hp)) rfl

/-- Witness for claim C7 (amended): store 99 does not exist. -/
theorem claim7_notfound_amended_witness :
    kvGet state0.kv (lockKeyFor 99 1) = none
    ∧ ("tok" : String) ≠ ""
    ∧ state0.db.getStore 99 = none
    ∧ (recordMovement state0 99 mdStockIn5 none "tok"
        = (if (state0.db.getStore 99).isNone then .storeNotFound else .productNotFound,
           state0)
       ∧ ApiResult.storeNotFound.statusCode = 404
       ∧ ApiResult.productNotFound.statusCode = 404) :=
  ⟨by decide, by decide, by decide,
   claim7_notfound_amended state0 99 mdStockIn5 none "tok" (by decide) (by decide)
     (Or.inl (by decide))⟩

/-! ## Claim C8 — the lock key namespace -/

/-- Claim C8, as stated, is false: the lock key contains the literal
"stock:" between the "lock:" prefix and the ids, because record_store_stock
builds the resource string "stock:sid:pid" and acquire_lock prefixes
"lock:".  For pair (1,2) the key is "lock:stock:1:2", not "lock:1:2". -/
theorem claim8_counterexample :
    lockKeyFor 1 2 = "lock:stock:1:2"
    ∧ lockKeyFor 1 2 ≠ "lock:" ++ toString (1 : Int) ++ ":" ++ toString (2 : Int) := by
  refine ⟨by decide, by decide⟩

/-- Claim C8 (amended): for every mutation of pair (store_id, product_id),
the lock key written by the set-if-absent attempt is exactly
"lock:stock:" followed by the store id, a colon, and the product id; when
that key is free the acquisition writes exactly that key and the call does
not Conflict, and the key is what recordMovement consults. -/
theorem claim8_lock_key_amended (st : SysState) (sid : Int) (md : MovementData)
    (u : Option User) (lid : String)
    (hk : kvGet st.kv (lockKeyFor sid md.product_id) = none) :
    lockKeyFor sid md.product_id
        = "lock:stock:" ++ toString sid ++ ":" ++ toString md.product_id
    ∧ acquire_lock st.kv (lockResourceFor sid md.product_id) lid
        = (true, lid, lockKeyFor sid md.product_id,
           (lockKeyFor sid md.product_id, lid) :: st.kv)
    ∧ (recordMovement st sid md u lid).1 ≠ ApiResult.conflict := by
  refine ⟨?_, acquire_lock_of_free hk, ?_⟩
  · unfold lockKeyFor lockResourceFor
    rw [← String.append_assoc, ← String.append_assoc, ← String.append_assoc,
      show ("lock:" ++ "stock:" : String) = "lock:stock:" from rfl]
  · unfold recordMovement
    rw [record_store_stock_free hk]
    exact recordBody_ne_conflict
      { st with kv := (lockKeyFor sid md.product_id, lid) :: st.kv } sid md u

/-- Witness for claim C8 (amended) at pair (1,1) on the fresh state. -/
theorem claim8_lock_key_amended_witness :
    kvGet state0.kv (lockKeyFor 1 1) = none
    ∧ (lockKeyFor 1 1 = "lock:stock:" ++ toString (1 : Int) ++ ":" ++ toString (1 : Int)
       ∧ acquire_lock state0.kv (lockResourceFor 1 1) "tok"
           = (true, "tok", lockKeyFor 1 1, (lockKeyFor 1 1, "tok") :: state0.kv)
       ∧ (recordMovement state0 1 mdStockIn5 none "tok").1 ≠ ApiResult.conflict) :=
  ⟨by decide, claim8_lock_key_amended state0 1 mdStockIn5 none "tok" (by decide)⟩

/-! ## Claim C9 — audit snapshots -/

/-- Claim C9, as stated, is false: a movement commits successfully (the
movement row is in the ledger) yet the committed audit table is still
empty — no audit entry is recorded at all, let alone one with before/after
snapshots.  The wrapper only session.add's its entry after the endpoint's
commit, with no further commit before the write session closes at
teardown, so the pending row is rolled back. -/
theorem claim9_counterexample :
    (recordMovement state0 1 mdStockIn5 none "tok").1.isOk = true
    ∧ (recordMovement state0 1 mdStockIn5 none "tok").2.db.movements.length = 1
    ∧ (recordMovement state0 1 mdStockIn5 none "tok").2.db.audit_logs = [] := by
  refine ⟨by decide, by decide, by decide⟩

/-- Claim C9 (amended): after a successful commit the wrapper constructs
one audit entry for the movement — action CREATE, resource type
StockMovement, the acting user, and old_values = new_values = None, so no
before/after quantity snapshots — and adds it to the request session; but
the session is never committed again and rolls back at teardown, so the
committed audit table is left exactly as it was: no audit row is ever
persisted. -/
theorem claim9_audit_amended (st : SysState) (sid : Int) (md : MovementData)
    (u : Option User) (lid : String) (m : StockMovement) (q : Int)
    (_hok : (record_store_stock st sid md u lid).1 = ApiResult.ok m q) :
    (recordMovement st sid md u lid).2.db.audit_logs = st.db.audit_logs
    ∧ (pendingAuditEntry u).action = "CREATE"
    ∧ (pendingAuditEntry u).resource_type = "StockMovement"
    ∧ (pendingAuditEntry u).user_id = u.map User.id
    ∧ (pendingAuditEntry u).old_values = none
    ∧ (pendingAuditEntry u).new_values = none :=
  ⟨recordMovement_audit_logs st sid md u lid, rfl, rfl, rfl, rfl, rfl⟩

/-- Witness for claim C9 (amended): STOCK_IN(5) on the fresh state. -/
theorem claim9_audit_amended_witness :
    (record_store_stock state0 1 mdStockIn5 none "tok").1
      = ApiResult.ok { product_id := 1, store_id := 1, quantity := 5,
                       type := .STOCK_IN, notes := none, user_id := none,
                       reference_number := none } 5
    ∧ ((recordMovement state0 1 mdStockIn5 none "tok").2.db.audit_logs
        = state0.db.audit_logs
       ∧ (pendingAuditEntry none).action = "CREATE"
       ∧ (pendingAuditEntry none).resource_type = "StockMovement"
       ∧ (pendingAuditEntry none).user_id = Option.map User.id none
       ∧ (pendingAuditEntry none).old_values = none
       ∧ (pendingAuditEntry none).new_values = none) :=
  ⟨by decide,
   claim9_audit_amended state0 1 mdStockIn5 none "tok"
     { product_id := 1, store_id := 1, quantity := 5,
       type := .STOCK_IN, notes := none, user_id := none,
       reference_number := none } 5 (by decide)⟩

/-! ## Claim C10 — invalid movement type -/

/-- Claim C10: when the lock is free and store and product exist, a request
whose submitted type is not the value of any of the six MovementType
members fails with HTTP 400 (Invalid movement type) and the final state
equals the initial state: nothing is committed and the acquired lock has
been released. -/
theorem claim10_invalid_type (st : SysState) (sid : Int) (md : MovementData)
    (u : Option User) (lid : String) (s : Store) (prod : Product)
    (hk : kvGet st.kv (lockKeyFor sid md.product_id) = none)
    (hlid : lid ≠ "")
    (hs : st.db.getStore sid = some s)
    (hp : st.db.getProduct md.product_id = some prod)
    (hty : ∀ t : MovementType, md.type ≠ some t.value) :
    recordMovement st sid md u lid = (.invalidMovementType, st)
    ∧ ApiResult.invalidMovementType.statusCode = 400 := by
  refine ⟨?_, rfl⟩
  exact recordMovement_err
    (record_store_stock_err hk hlid
      (recordBody_bad_type hs hp (parse_none_of_not_value hty))) rfl

/-- Witness for claim C10: the submitted type "donate" is rejected with 400
and the state is untouched. -/
theorem claim10_invalid_type_witness :
    kvGet state0.kv (lockKeyFor 1 1) = none
    ∧ ("tok" : String) ≠ ""
    ∧ state0.db.getStore 1 = some store1
    ∧ state0.db.getProduct 1 = some product1
    ∧ (∀ t : MovementType, mdBadType.type ≠ some t.value)
    ∧ (recordMovement state0 1 mdBadType none "tok" = (.invalidMovementType, state0)
       ∧ ApiResult.invalidMovementType.statusCode = 400) :=
  ⟨by decide, by decide, by decide, by decide,
   by intro t h; cases t <;> simp [mdBadType, mdOf, MovementType.value] at h,
   claim10_invalid_type state0 1 mdBadType none "tok" store1 product1 (by decide)
     (by decide) (by decide) (by decide)
     (by intro t h; cases t <;> simp [mdBadType, mdOf, MovementType.value] at h)⟩

end InvTracker
